import Mathlib

/-!
Verification of the scripted-response chat models of this repository.

The repository contains two variants of a deterministic scripted chat model:

* `FakeChatModel` (examples/simple_demo.py): fields `idx : int = 0` and
  `responses : Sequence[BaseMessage]`.  Its `_generate` builds
  `ChatGeneration(message=self.responses[self.idx])` (an out-of-range index
  raises IndexError before any mutation), then runs `self.idx += 1` and
  returns `ChatResult(generations=[generation])`.  `bind_tools` maps each
  tool to a dict holding only its name and returns `self.bind(tools=...)`,
  a binding around the same model.

* `MockChatModel` (examples/demo_supervisor.py): fields
  `responses : list[str]` and `current_index : int = 0`; `__init__` performs
  no validation and sets `current_index = 0`.  Its `_generate` checks
  `current_index < len(responses)`: if so it takes the response at the
  cursor and increments the cursor, otherwise it returns the fixed fallback
  string and leaves the cursor alone; either way it wraps the text in an
  `AIMessage` inside a `ChatResult`.  `bind_tools` returns `self`.

Python object mutation is embedded as explicit state passing: `_generate`
becomes a pure function from a model state and a message history to a
result together with the successor state.  The IndexError of the fake
variant becomes an `Option` result paired with the (unchanged) state of the
object after the exception escapes.
-/

/-- A tool-call request carried by a scripted message (name, arguments,
call identifier), as in the AIMessage tool_calls dicts of the demos. -/
structure ToolCallRec where
  name : String
  args : String
  id : String
deriving Repr, DecidableEq

/-- A chat message: text content plus requested tool calls.  This models
langchain BaseMessage/AIMessage as used by the demos. -/
structure BaseMessage where
  content : String
  tool_calls : List ToolCallRec
deriving Repr, DecidableEq

/-- AIMessage(content=response): a plain text message with no tool calls. -/
def AIMessage (content : String) : BaseMessage :=
  { content := content, tool_calls := [] }

/-- ChatGeneration(message=m). -/
structure ChatGeneration where
  message : BaseMessage
deriving Repr, DecidableEq

/-- ChatResult(generations=[...]). -/
structure ChatResult where
  generations : List ChatGeneration
deriving Repr, DecidableEq

/-- A tool descriptor passed to bind_tools: either a BaseTool carrying a
name, or any other object rendered by str(). -/
inductive ToolSpec where
  | baseTool (name : String)
  | other (repr : String)
deriving Repr, DecidableEq

/-- `tool.name if isinstance(tool, BaseTool) else str(tool)`. -/
def ToolSpec.dictName : ToolSpec → String
  | .baseTool n => n
  | .other r => r

/-- State of FakeChatModel (examples/simple_demo.py): a cursor `idx` and the
seeded `responses` sequence. -/
structure FakeChatModel where
  idx : Nat
  responses : List BaseMessage
deriving Repr, DecidableEq

/-- Construction `FakeChatModel(responses=rs)`: the `idx` field uses its
declared default 0; no validation is performed. -/
def FakeChatModel.construct (responses : List BaseMessage) : FakeChatModel :=
  { idx := 0, responses := responses }

/-- FakeChatModel._generate.  The read `self.responses[self.idx]` happens
first: when the index is out of range, IndexError escapes before
`self.idx += 1` runs, so the call yields no result and the object state is
unchanged.  Otherwise the generation wraps the message at the cursor and
the cursor advances by one.  The `messages` history argument is unused by
the body. -/
def FakeChatModel.generate (s : FakeChatModel) (messages : List BaseMessage) :
    Option ChatResult × FakeChatModel :=
  match s.responses[s.idx]? with
  | none => (none, s)
  | some m => (some { generations := [{ message := m }] }, { s with idx := s.idx + 1 })

/-- Repeated invocation of FakeChatModel._generate, one call per history
argument in the list, threading the object state. -/
def FakeChatModel.run (s : FakeChatModel) :
    List (List BaseMessage) → List (Option ChatResult) × FakeChatModel
  | [] => ([], s)
  | h :: hs =>
    let p := s.generate h
    let q := p.2.run hs
    (p.1 :: q.1, q.2)

/-- The handle returned by FakeChatModel.bind_tools: `self.bind(tools=...)`,
i.e. the same underlying model together with the recorded tool dicts (each
dict holds only the name). -/
structure BoundFakeModel where
  model : FakeChatModel
  tools : List String
deriving Repr, DecidableEq

/-- FakeChatModel.bind_tools: builds `[{"name": ...} for tool in tools]`
and returns `self.bind(tools=tool_dicts)`. -/
def FakeChatModel.bind_tools (s : FakeChatModel) (tools : List ToolSpec) :
    BoundFakeModel :=
  { model := s, tools := tools.map ToolSpec.dictName }

/-- Invoking the bound handle: the binding forwards to the same model
(whose _generate ignores the extra kwargs) and keeps the bound tools. -/
def BoundFakeModel.generate (b : BoundFakeModel) (messages : List BaseMessage) :
    Option ChatResult × BoundFakeModel :=
  ((b.model.generate messages).1,
    { model := (b.model.generate messages).2, tools := b.tools })

/-- Repeated invocation of the bound handle. -/
def BoundFakeModel.run (b : BoundFakeModel) :
    List (List BaseMessage) → List (Option ChatResult) × BoundFakeModel
  | [] => ([], b)
  | h :: hs =>
    let p := b.generate h
    let q := p.2.run hs
    (p.1 :: q.1, q.2)

/-- The fixed fallback text of MockChatModel._generate. -/
def mockFallback : String := "I don\x27t have more responses configured."

/-- State of MockChatModel (examples/demo_supervisor.py): the seeded
`responses` strings and the cursor `current_index`. -/
structure MockChatModel where
  responses : List String
  current_index : Nat
deriving Repr, DecidableEq

/-- MockChatModel.__init__(responses): stores the list as given (no
validation, empty allowed) and sets current_index to 0. -/
def MockChatModel.construct (responses : List String) : MockChatModel :=
  { responses := responses, current_index := 0 }

/-- MockChatModel._generate: if `current_index < len(responses)` take the
response at the cursor and increment the cursor, else use the fallback text
and leave the cursor alone; wrap the text in an AIMessage inside a
ChatResult.  The `messages` history argument is unused by the body. -/
def MockChatModel.generate (s : MockChatModel) (messages : List BaseMessage) :
    ChatResult × MockChatModel :=
  match s.responses[s.current_index]? with
  | some r =>
    ({ generations := [{ message := AIMessage r }] },
      { s with current_index := s.current_index + 1 })
  | none =>
    ({ generations := [{ message := AIMessage mockFallback }] }, s)

/-- Repeated invocation of MockChatModel._generate. -/
def MockChatModel.run (s : MockChatModel) :
    List (List BaseMessage) → List ChatResult × MockChatModel
  | [] => ([], s)
  | h :: hs =>
    let p := s.generate h
    let q := p.2.run hs
    (p.1 :: q.1, q.2)

/-- MockChatModel.bind_tools: returns `self` unchanged. -/
def MockChatModel.bind_tools (s : MockChatModel) (tools : List ToolSpec) :
    MockChatModel :=
  s

/-- The ChatResult wrapping a single message, as produced by _generate. -/
def resultOf (m : BaseMessage) : ChatResult :=
  { generations := [{ message := m }] }

/-- Indexing the whole of a list in order yields its elements. -/
theorem range_length_map_get {α : Type} (l : List α) :
    (List.range l.length).map (fun j => l[j]?) = l.map some := by
  induction l with
  | nil => simp
  | cons a t ih =>
    have htail : (List.range t.length).map ((fun j => (a :: t)[j]?) ∘ Nat.succ)
        = t.map some := by
      rw [← ih]
      exact List.map_congr_left (fun j _ => by simp [Function.comp])
    simp [List.range_succ_eq_map, List.map_map, htail]

/-- The j-th output of a fake replay reads the response at offset idx + j;
the history contents play no role. -/
theorem FakeChatModel.run_fst (hs : List (List BaseMessage)) (s : FakeChatModel) :
    (s.run hs).1 = (List.range hs.length).map
      (fun j => (s.responses[s.idx + j]?).map resultOf) := by
  induction hs generalizing s with
  | nil => simp [run]
  | cons h hs ih =>
    cases hm : s.responses[s.idx]? with
    | none =>
      have hlen : s.responses.length <= s.idx := List.getElem?_eq_none_iff.mp hm
      have hnone : forall j : Nat, s.responses[s.idx + j]? = none := fun j =>
        List.getElem?_eq_none (le_trans hlen (Nat.le_add_right _ _))
      simp only [run, generate, hm, ih, List.length_cons]
      rw [List.range_succ_eq_map, List.map_cons, List.map_map]
      congr 1
      · simp [hm]
      · refine List.map_congr_left (fun j _ => ?_)
        simp [Function.comp, hnone]
    | some m =>
      simp only [run, generate, hm, ih, List.length_cons]
      rw [List.range_succ_eq_map, List.map_cons, List.map_map]
      congr 1
      · simp [hm, resultOf]
      · refine List.map_congr_left (fun j _ => ?_)
        have hidx : s.idx + 1 + j = s.idx + (j + 1) := by omega
        simp [Function.comp, hidx]

/-- A fake replay never modifies the seeded responses. -/
theorem FakeChatModel.run_responses (hs : List (List BaseMessage)) (s : FakeChatModel) :
    (s.run hs).2.responses = s.responses := by
  induction hs generalizing s with
  | nil => rfl
  | cons h hs ih =>
    cases hm : s.responses[s.idx]? with
    | none => simp [run, generate, hm, ih]
    | some m => simp [run, generate, hm, ih]

/-- The fake cursor never decreases across one call. -/
theorem FakeChatModel.generate_idx_mono (s : FakeChatModel) (h : List BaseMessage) :
    s.idx <= (s.generate h).2.idx := by
  cases hm : s.responses[s.idx]? with
  | none => simp [generate, hm]
  | some m => simp [generate, hm]

/-- After k in-bounds fake calls the cursor has advanced by exactly k. -/
theorem FakeChatModel.run_idx_of_le (hs : List (List BaseMessage)) (s : FakeChatModel)
    (hk : s.idx + hs.length <= s.responses.length) :
    (s.run hs).2.idx = s.idx + hs.length := by
  induction hs generalizing s with
  | nil => rfl
  | cons h hs ih =>
    have hlt : s.idx < s.responses.length := by
      simp only [List.length_cons] at hk
      omega
    rw [run]
    simp only [generate, List.getElem?_eq_getElem hlt]
    rw [ih]
    · simp only [List.length_cons]
      omega
    · simp only [List.length_cons] at hk
      simp only [List.length_cons]
      omega

/-- The j-th output of a mock replay: the response at offset
current_index + j when in bounds, else the fallback; the history contents
play no role. -/
theorem MockChatModel.run_outputs (hs : List (List BaseMessage)) (s : MockChatModel) :
    (s.run hs).1 = (List.range hs.length).map
      (fun j => resultOf (AIMessage
        ((s.responses[s.current_index + j]?).getD mockFallback))) := by
  induction hs generalizing s with
  | nil => simp [run]
  | cons h hs ih =>
    cases hm : s.responses[s.current_index]? with
    | none =>
      have hlen : s.responses.length <= s.current_index :=
        List.getElem?_eq_none_iff.mp hm
      have hnone : forall j : Nat, s.responses[s.current_index + j]? = none :=
        fun j => List.getElem?_eq_none (le_trans hlen (Nat.le_add_right _ _))
      simp only [run, generate, hm, ih, List.length_cons]
      rw [List.range_succ_eq_map, List.map_cons, List.map_map]
      congr 1
      · simp [hm, resultOf]
      · refine List.map_congr_left (fun j _ => ?_)
        simp [Function.comp, hnone]
    | some r =>
      simp only [run, generate, hm, ih, List.length_cons]
      rw [List.range_succ_eq_map, List.map_cons, List.map_map]
      congr 1
      · simp [hm, resultOf]
      · refine List.map_congr_left (fun j _ => ?_)
        have hidx : s.current_index + 1 + j = s.current_index + (j + 1) := by omega
        simp [Function.comp, hidx]

/-- A mock replay never modifies the seeded responses. -/
theorem MockChatModel.run_seed_unchanged (hs : List (List BaseMessage)) (s : MockChatModel) :
    (s.run hs).2.responses = s.responses := by
  induction hs generalizing s with
  | nil => rfl
  | cons h hs ih =>
    cases hm : s.responses[s.current_index]? with
    | none => simp [run, generate, hm, ih]
    | some r => simp [run, generate, hm, ih]

/-- The mock cursor never decreases across one call. -/
theorem MockChatModel.generate_index_mono (s : MockChatModel) (h : List BaseMessage) :
    s.current_index <= (s.generate h).2.current_index := by
  cases hm : s.responses[s.current_index]? with
  | none => simp [generate, hm]
  | some r => simp [generate, hm]

/-- After k in-bounds mock calls the cursor has advanced by exactly k. -/
theorem MockChatModel.run_index_of_le (hs : List (List BaseMessage)) (s : MockChatModel)
    (hk : s.current_index + hs.length <= s.responses.length) :
    (s.run hs).2.current_index = s.current_index + hs.length := by
  induction hs generalizing s with
  | nil => rfl
  | cons h hs ih =>
    have hlt : s.current_index < s.responses.length := by
      simp only [List.length_cons] at hk
      omega
    rw [run]
    simp only [generate, List.getElem?_eq_getElem hlt]
    rw [ih]
    · simp only [List.length_cons]
      omega
    · simp only [List.length_cons] at hk
      simp only [List.length_cons]
      omega

/-- A run of an exhausted mock model returns the fallback every time and
never moves the state. -/
theorem MockChatModel.run_exhausted (hs : List (List BaseMessage)) (s : MockChatModel)
    (hk : s.responses.length <= s.current_index) :
    (s.run hs).1 = List.replicate hs.length (resultOf (AIMessage mockFallback)) ∧
      (s.run hs).2 = s := by
  induction hs with
  | nil => exact ⟨rfl, rfl⟩
  | cons h hs ih =>
    have hm : s.responses[s.current_index]? = none := List.getElem?_eq_none hk
    simp only [run, generate, hm, List.replicate]
    exact ⟨by rw [ih.1]; rfl, ih.2⟩

/-- A run of the bound handle produces exactly the outputs of the
underlying model and keeps the bound tools. -/
theorem BoundFakeModel.run_spec (hs : List (List BaseMessage)) (b : BoundFakeModel) :
    (b.run hs).1 = (b.model.run hs).1 ∧
      (b.run hs).2 = { model := (b.model.run hs).2, tools := b.tools } := by
  induction hs generalizing b with
  | nil => exact ⟨rfl, rfl⟩
  | cons h hs ih =>
    obtain ⟨h1, h2⟩ := ih { model := (b.model.generate h).2, tools := b.tools }
    simp only [run, FakeChatModel.run, generate]
    exact ⟨by rw [h1], by rw [h2]⟩

/-- Mapping a function of the optional lookup over all in-range indices is
mapping it over the elements. -/
theorem range_map_get_comp {α β : Type} (l : List α) (F : Option α → β) :
    (List.range l.length).map (fun j => F l[j]?) = l.map (fun a => F (some a)) := by
  rw [show (fun j => F l[j]?) = F ∘ (fun j => l[j]?) from rfl, ← List.map_map,
    range_length_map_get, List.map_map]
  rfl

/-- One index past the end, the same map picks up one out-of-range lookup. -/
theorem range_succ_map_get_comp {α β : Type} (l : List α) (F : Option α → β) :
    (List.range (l.length + 1)).map (fun j => F l[j]?)
      = l.map (fun a => F (some a)) ++ [F none] := by
  have hend : l[l.length]? = none := List.getElem?_eq_none (le_refl _)
  rw [List.range_succ, List.map_append, range_map_get_comp]
  simp [hend]

/-- Claim C1: on a freshly constructed scripted model seeded with N
responses, the first N generate calls return the configured response
records in order, each exactly once, and the outputs do not depend on the
content of the conversation-history arguments, only on the call count.
Stated for both variants (FakeChatModel and MockChatModel). -/
theorem c1_first_calls_in_order (rs : List BaseMessage) (ss : List String)
    (hs hs2 ms ms2 : List (List BaseMessage))
    (hlen : hs.length = rs.length) (hlen2 : hs2.length = rs.length)
    (mlen : ms.length = ss.length) (mlen2 : ms2.length = ss.length) :
    ((FakeChatModel.construct rs).run hs).1 = rs.map (fun m => some (resultOf m))
    ∧ ((FakeChatModel.construct rs).run hs).1
        = ((FakeChatModel.construct rs).run hs2).1
    ∧ ((MockChatModel.construct ss).run ms).1
        = ss.map (fun r => resultOf (AIMessage r))
    ∧ ((MockChatModel.construct ss).run ms).1
        = ((MockChatModel.construct ss).run ms2).1 := by
  have hf : ∀ hx : List (List BaseMessage), hx.length = rs.length →
      ((FakeChatModel.construct rs).run hx).1 = rs.map (fun m => some (resultOf m)) := by
    intro hx hl
    rw [FakeChatModel.run_fst, hl]
    simpa [FakeChatModel.construct] using range_map_get_comp rs (fun o => Option.map resultOf o)
  have hk : ∀ mx : List (List BaseMessage), mx.length = ss.length →
      ((MockChatModel.construct ss).run mx).1
        = ss.map (fun r => resultOf (AIMessage r)) := by
    intro mx ml
    rw [MockChatModel.run_outputs, ml]
    simpa [MockChatModel.construct] using range_map_get_comp ss (fun o => resultOf (AIMessage (o.getD mockFallback)))
  exact ⟨hf hs hlen, (hf hs hlen).trans (hf hs2 hlen2).symm,
    hk ms mlen, (hk ms mlen).trans (hk ms2 mlen2).symm⟩

/-- Witness for claim C1 at a concrete seed and histories. -/
theorem c1_first_calls_in_order_witness :
    ((FakeChatModel.construct [AIMessage "a"]).run [[AIMessage "h"]]).1
      = [AIMessage "a"].map (fun m => some (resultOf m)) :=
  (c1_first_calls_in_order [AIMessage "a"] ["x"] [[AIMessage "h"]] [[]] [[]]
    [[AIMessage "z"]] rfl rfl rfl rfl).1

/-- Claim C2: one extra generate call after the N configured ones yields
the error (fake variant: the IndexError, no result) or the documented
fallback (mock variant), never a repeat of an earlier configured record. -/
theorem c2_exhaustion_after_n (rs : List BaseMessage) (ss : List String)
    (hs ms : List (List BaseMessage))
    (hlen : hs.length = rs.length + 1) (mlen : ms.length = ss.length + 1) :
    ((FakeChatModel.construct rs).run hs).1
        = rs.map (fun m => some (resultOf m)) ++ [none]
    ∧ ((MockChatModel.construct ss).run ms).1
        = ss.map (fun r => resultOf (AIMessage r))
            ++ [resultOf (AIMessage mockFallback)] := by
  constructor
  · rw [FakeChatModel.run_fst, hlen]
    simpa [FakeChatModel.construct] using range_succ_map_get_comp rs (fun o => Option.map resultOf o)
  · rw [MockChatModel.run_outputs, mlen]
    simpa [MockChatModel.construct] using range_succ_map_get_comp ss
      (fun o => resultOf (AIMessage (o.getD mockFallback)))

/-- Witness for claim C2 at a concrete seed and histories. -/
theorem c2_exhaustion_after_n_witness :
    ((FakeChatModel.construct [AIMessage "a"]).run [[], []]).1
      = [AIMessage "a"].map (fun m => some (resultOf m)) ++ [none] :=
  (c2_exhaustion_after_n [AIMessage "a"] ["x"] [[], []] [[], []] rfl rfl).1

/-- Claim C3 counterexample: on the fallback variant an exhausted generate
invocation completes without advancing the cursor, so "every generate
invocation advances the cursor by exactly one" is false: a MockChatModel
constructed with the empty script keeps current_index = 0, not 1, after a
generate call. -/
theorem c3_counterexample :
    ¬ ((MockChatModel.construct []).generate []).2.current_index
        = (MockChatModel.construct []).current_index + 1 := by decide

/-- Claim C3 as amended: the cursor starts at 0 at construction and never
decreases across calls (any state, exhausted ones included); a generate
invocation made with the cursor strictly below the script length (a
successful call) consumes exactly the record at the cursor and advances
the cursor by exactly one; after any k such in-bounds calls on a fresh
model the cursor equals k; and an exhausted invocation of the fallback
variant completes without advancing the cursor.  (The original claim
asserted the consume-and-advance behaviour of every invocation.) -/
theorem c3_amended_cursor_invariants (rs : List BaseMessage) (ss : List String)
    (s : FakeChatModel) (t : MockChatModel) (h h2 : List BaseMessage)
    (hs ms : List (List BaseMessage)) :
    (FakeChatModel.construct rs).idx = 0
    ∧ (MockChatModel.construct ss).current_index = 0
    ∧ s.idx <= (s.generate h).2.idx
    ∧ t.current_index <= (t.generate h2).2.current_index
    ∧ (∀ hsf : s.idx < s.responses.length,
        (s.generate h).1 = some (resultOf (s.responses.get ⟨s.idx, hsf⟩))
        ∧ (s.generate h).2.idx = s.idx + 1)
    ∧ (∀ hst : t.current_index < t.responses.length,
        (t.generate h2).1 = resultOf (AIMessage (t.responses.get ⟨t.current_index, hst⟩))
        ∧ (t.generate h2).2.current_index = t.current_index + 1)
    ∧ (t.responses.length <= t.current_index →
        (t.generate h2).2.current_index = t.current_index)
    ∧ (hs.length <= rs.length →
        ((FakeChatModel.construct rs).run hs).2.idx = hs.length)
    ∧ (ms.length <= ss.length →
        ((MockChatModel.construct ss).run ms).2.current_index = ms.length) := by
  refine ⟨rfl, rfl, FakeChatModel.generate_idx_mono s h,
    MockChatModel.generate_index_mono t h2, ?_, ?_, ?_, ?_, ?_⟩
  · intro hsf
    constructor
    · simp [FakeChatModel.generate, List.getElem?_eq_getElem hsf, resultOf]
    · simp [FakeChatModel.generate, List.getElem?_eq_getElem hsf]
  · intro hst
    constructor
    · simp [MockChatModel.generate, List.getElem?_eq_getElem hst, resultOf]
    · simp [MockChatModel.generate, List.getElem?_eq_getElem hst]
  · intro hge
    have hm : t.responses[t.current_index]? = none := List.getElem?_eq_none hge
    simp [MockChatModel.generate, hm]
  · intro hkf
    have := FakeChatModel.run_idx_of_le hs (FakeChatModel.construct rs)
      (by simpa [FakeChatModel.construct] using hkf)
    simpa [FakeChatModel.construct] using this
  · intro hkm
    have := MockChatModel.run_index_of_le ms (MockChatModel.construct ss)
      (by simpa [MockChatModel.construct] using hkm)
    simpa [MockChatModel.construct] using this

/-- Witness for the amended claim C3 at concrete instances: an in-bounds
fake call advances the cursor by one, an exhausted mock call leaves it
unchanged, and one in-bounds call on a fresh fake model puts the cursor
at 1. -/
theorem c3_amended_cursor_invariants_witness :
    ((FakeChatModel.mk 0 [AIMessage "c"]).generate []).2.idx
        = (FakeChatModel.mk 0 [AIMessage "c"]).idx + 1
    ∧ ((MockChatModel.mk ["d"] 1).generate []).2.current_index
        = (MockChatModel.mk ["d"] 1).current_index
    ∧ ((FakeChatModel.construct [AIMessage "a"]).run [[]]).2.idx
        = ([[]] : List (List BaseMessage)).length := by
  have base := c3_amended_cursor_invariants [AIMessage "a"] ["b"]
    (FakeChatModel.mk 0 [AIMessage "c"]) (MockChatModel.mk ["d"] 1) [] [] [[]] [[]]
  exact ⟨(base.2.2.2.2.1 (by decide)).2, base.2.2.2.2.2.2.1 (by decide),
    base.2.2.2.2.2.2.2.1 (by decide)⟩

/-- Claim C4 counterexample: construction with an empty response sequence
does not fail.  Both variants build a fully formed model state (cursor 0,
empty script) from the empty sequence, and the fallback variant even
answers its first generate call with the sentinel. -/
theorem c4_counterexample :
    MockChatModel.construct [] = { responses := [], current_index := 0 }
    ∧ FakeChatModel.construct [] = { idx := 0, responses := [] }
    ∧ ((MockChatModel.construct []).generate []).1 = resultOf (AIMessage mockFallback)
    ∧ ((FakeChatModel.construct []).generate []).1 = none := by
  exact ⟨rfl, rfl, rfl, rfl⟩

/-- Claim C4 as amended: constructing a scripted model with an empty
response sequence succeeds (no construction-time check exists); the
misconfiguration surfaces only at the first generate call, where the
fail-fast variant fails with its state unchanged and the fallback variant
returns the sentinel with its state unchanged. -/
theorem c4_amended_empty_script (h h2 : List BaseMessage) :
    (FakeChatModel.construct []).generate h = (none, FakeChatModel.construct [])
    ∧ (MockChatModel.construct []).generate h2
        = (resultOf (AIMessage mockFallback), MockChatModel.construct []) := by
  exact ⟨rfl, rfl⟩

/-- Claim C5: binding tools changes neither the sequence nor the order of
subsequent generate outputs; the returned handle replays exactly what the
unbound model would have replayed.  (The fake variant returns a binding
around the same model; the mock variant returns self.) -/
theorem c5_bind_tools_frame (s : FakeChatModel) (t : MockChatModel)
    (ts ts2 : List ToolSpec) (hs ms : List (List BaseMessage)) :
    ((s.bind_tools ts).run hs).1 = (s.run hs).1
    ∧ (t.bind_tools ts2).run ms = t.run ms := by
  exact ⟨(BoundFakeModel.run_spec hs (s.bind_tools ts)).1, rfl⟩

/-- Claim C6: instances A seeded with [X, Y] and B seeded with [Z],
interleaved as A.generate, B.generate, A.generate with arbitrary history
arguments, return X, then Z, then Y; B ends exactly in the state it would
have reached alone, so neither instance disturbs the other. -/
theorem c6_independent_instances (X Y Z : BaseMessage) (h1 h2 h3 : List BaseMessage) :
    ((FakeChatModel.construct [X, Y]).generate h1).1 = some (resultOf X)
    ∧ ((FakeChatModel.construct [Z]).generate h2).1 = some (resultOf Z)
    ∧ (((FakeChatModel.construct [X, Y]).generate h1).2.generate h3).1
        = some (resultOf Y)
    ∧ ((FakeChatModel.construct [Z]).generate h2).2
        = { idx := 1, responses := [Z] } := by
  exact ⟨rfl, rfl, rfl, rfl⟩

/-- Claim C7: the only observable side effect of a generate call is the
cursor: the seeded responses are unchanged and the successor state differs
from the original at most in the cursor, which either stays (exhausted
fallback/failed call) or advances by one; the embedding is a pure function,
matching the absence of I/O in the source. -/
theorem c7_generate_frame (s : FakeChatModel) (t : MockChatModel)
    (h h2 : List BaseMessage) :
    (s.generate h).2.responses = s.responses
    ∧ ((s.generate h).2.idx = s.idx ∨ (s.generate h).2.idx = s.idx + 1)
    ∧ (t.generate h2).2.responses = t.responses
    ∧ ((t.generate h2).2.current_index = t.current_index
        ∨ (t.generate h2).2.current_index = t.current_index + 1) := by
  refine ⟨?_, ?_, ?_, ?_⟩
  · cases hm : s.responses[s.idx]? <;> simp [FakeChatModel.generate, hm]
  · cases hm : s.responses[s.idx]? <;> simp [FakeChatModel.generate, hm]
  · cases hm : t.responses[t.current_index]? <;> simp [MockChatModel.generate, hm]
  · cases hm : t.responses[t.current_index]? <;> simp [MockChatModel.generate, hm]

/-- Claim C8: generate is total and bounded: on every state and every
input it yields a result (the embedding is a total function, a single
indexed lookup with no recursion), its outcome does not depend on the
input history at all (no search or looping on input), and the cursor moves
by at most one. -/
theorem c8_generate_total (s : FakeChatModel) (t : MockChatModel)
    (h h2 h3 h4 : List BaseMessage) :
    (∃ out, s.generate h = out)
    ∧ (∃ out, t.generate h2 = out)
    ∧ s.generate h = s.generate h3
    ∧ t.generate h2 = t.generate h4
    ∧ (s.generate h).2.idx <= s.idx + 1
    ∧ (t.generate h2).2.current_index <= t.current_index + 1 := by
  refine ⟨⟨_, rfl⟩, ⟨_, rfl⟩, rfl, rfl, ?_, ?_⟩
  · cases hm : s.responses[s.idx]? <;> simp [FakeChatModel.generate, hm]
  · cases hm : t.responses[t.current_index]? <;> simp [MockChatModel.generate, hm]

/-- Claim C9: in the fallback variant, whenever the cursor is at or past
the end of the response list, generate returns the sentinel AI message,
leaves the cursor (indeed the whole state) unchanged, and therefore every
further call returns the same sentinel. -/
theorem c9_mock_fallback (t : MockChatModel) (h : List BaseMessage)
    (hs : List (List BaseMessage))
    (hge : t.responses.length <= t.current_index) :
    (t.generate h).1 = resultOf (AIMessage mockFallback)
    ∧ (t.generate h).2 = t
    ∧ (t.run hs).1 = List.replicate hs.length (resultOf (AIMessage mockFallback)) := by
  have hm : t.responses[t.current_index]? = none := List.getElem?_eq_none hge
  exact ⟨by simp [MockChatModel.generate, hm, resultOf],
    by simp [MockChatModel.generate, hm],
    (MockChatModel.run_exhausted hs t hge).1⟩

/-- Witness for claim C9 at a concrete exhausted state. -/
theorem c9_mock_fallback_witness :
    ((MockChatModel.mk ["r"] 1).generate []).1 = resultOf (AIMessage mockFallback) :=
  (c9_mock_fallback (MockChatModel.mk ["r"] 1) [] [[]] (by decide)).1

/-- Claim C10: in the fail-fast variant, a generate call with the cursor
at or past the end of the script performs the out-of-bounds read before
the cursor increment, so it produces no result and leaves the state
exactly unchanged: the failure is atomic. -/
theorem c10_fake_atomic_failure (s : FakeChatModel) (h : List BaseMessage)
    (hge : s.responses.length <= s.idx) :
    s.generate h = (none, s) := by
  have hm : s.responses[s.idx]? = none := List.getElem?_eq_none hge
  simp [FakeChatModel.generate, hm]

/-- Witness for claim C10 at a concrete exhausted state. -/
theorem c10_fake_atomic_failure_witness :
    (FakeChatModel.mk 1 [AIMessage "a"]).generate []
      = (none, FakeChatModel.mk 1 [AIMessage "a"]) :=
  c10_fake_atomic_failure (FakeChatModel.mk 1 [AIMessage "a"]) [] (by decide)
